import Mathlib

/-!
Shallow embedding of the albert-readeck plugin (`src/__init__.py`).

The plugin maintains a searchable index of bookmarks held on a remote
Readeck server.  The parts embedded here are the ones the claims are
about: the paginated fetch loop (`_get_links`), the refresh cycle
(`fetchIndexItems`), the record transformer (`_create_filters`,
`_gen_item`), the HTTP requests built by the remote operations
(`_get_links`, `_archive_bookmark`, `_delete_bookmark`), the
configuration setters (`instance_url`, `api_key`, `cache_length`) and
the background fetcher thread (`LinkFetcherThread`).

HTTP itself is external: the server is modelled as an oracle mapping a
requested offset to either a transport failure (the exception
`requests.get` raises on a network or timeout error, which the plugin
does not catch) or a `Response`.  Python's unbounded `while` loop is
embedded with a fuel parameter; the theorems supply enough fuel for the
scenario at hand.
-/

namespace Readeck

/-- A raw bookmark record as reported by the server (spec §3 RawRecord).
Fields mirror the dict keys read by `_create_filters` and `_gen_item`. -/
structure RawRecord where
  id : String
  url : String
  title : String
  labels : List String
  is_marked : Bool
  is_archived : Bool
  href : String
deriving DecidableEq, Repr

/-- The exception `requests` raises on a network or timeout failure
(spec §4.1 TransportError).  `src/__init__.py` never catches it. -/
structure TransportError where
  msg : String
deriving DecidableEq, Repr

/-- An HTTP response as seen by the plugin: `response.ok`,
`response.status_code`, `response.headers` (integer-valued headers such
as `Total-Count`, already parsed) and `response.json()` (a list of
bookmark records). -/
structure Response where
  ok : Bool
  statusCode : Nat
  headers : List (String × Nat)
  body : List RawRecord
deriving DecidableEq, Repr

/-- The configuration the remote operations read:
`self._instance_url` and `self._api_key`. -/
structure Config where
  instance_url : String
  api_key : String
deriving DecidableEq, Repr

/-- `Plugin.limit = 100` (class attribute, src line 42). -/
def limit : Nat := 100

/-- `Plugin.user_agent = "org.albert.linkding"` (class attribute, src line 43). -/
def user_agent : String := "org.albert.linkding"

/-- An HTTP request as issued through `requests`: method, url, headers,
the `timeout=` keyword argument (absent means no timeout) and the
`json=` body (a dict of boolean fields; empty means no body). -/
structure HttpRequest where
  method : String
  url : String
  headers : List (String × String)
  timeout : Option Nat
  jsonBody : List (String × Bool)
deriving DecidableEq, Repr

/-- The URL built in `_get_links` (src line 193):
`f"{self._instance_url}/api/bookmarks?{parse.urlencode(params)}"` with
`params = {"limit": 100, "offset": offset}`. -/
def listUrl (cfg : Config) (offset : Nat) : String :=
  cfg.instance_url ++ "/api/bookmarks?limit=" ++ toString limit
    ++ "&offset=" ++ toString offset

/-- The GET request issued by each iteration of `_get_links`
(src lines 188, 193–194): headers `User-Agent`, `Authorization: Bearer
{api_key}`, `accept: application/json`; `timeout=5`. -/
def listRequest (cfg : Config) (offset : Nat) : HttpRequest :=
  { method := "GET"
    url := listUrl cfg offset
    headers := [("User-Agent", user_agent),
                ("Authorization", "Bearer " ++ cfg.api_key),
                ("accept", "application/json")]
    timeout := some 5
    jsonBody := [] }

/-- The PATCH request issued by `_archive_bookmark` (src lines 216–220):
trailing-slash URL, headers `User-Agent` and `Authorization`, body
`{"is_archived": True}`, and no `timeout=` argument. -/
def archiveRequest (cfg : Config) (bookmark_id : String) : HttpRequest :=
  { method := "PATCH"
    url := cfg.instance_url ++ "/api/bookmarks/" ++ bookmark_id ++ "/"
    headers := [("User-Agent", user_agent),
                ("Authorization", "Bearer " ++ cfg.api_key)]
    timeout := none
    jsonBody := [("is_archived", true)] }

/-- The DELETE request issued by `_delete_bookmark` (src lines 206–210):
no trailing slash, headers `User-Agent` and `Authorization`, no body,
and no `timeout=` argument. -/
def deleteRequest (cfg : Config) (bookmark_id : String) : HttpRequest :=
  { method := "DELETE"
    url := cfg.instance_url ++ "/api/bookmarks/" ++ bookmark_id
    headers := [("User-Agent", user_agent),
                ("Authorization", "Bearer " ++ cfg.api_key)]
    timeout := none
    jsonBody := [] }

/-- Python's `sep.join(strings)`. -/
def pyJoin (sep : String) : List String → String
  | [] => ""
  | [x] => x
  | x :: y :: xs => x ++ sep ++ pyJoin sep (y :: xs)

/-- `Plugin._create_filters` (src lines 145–146):
`",".join([item["url"], item["title"], ",".join(item["labels"])])`. -/
def create_filters (item : RawRecord) : String :=
  pyJoin "," [item.url, item.title, pyJoin "," item.labels]

/-- The logical operation an action is bound to (spec §3 action
bindings: "logical operation tags, not closures").  `archiveOp id`
stands for the closure `lambda u=id: self._archive_bookmark(u)`,
`deleteOp id` for `lambda u=id: self._delete_bookmark(u)`. -/
inductive BoundOp where
  | openUrlOp (url : String)
  | copyOp (url : String)
  | archiveOp (bookmark_id : String)
  | deleteOp (bookmark_id : String)
deriving DecidableEq, Repr

/-- Whether an operation is a binding of `_delete_bookmark`. -/
def BoundOp.isDeleteOp : BoundOp → Bool
  | .deleteOp _ => true
  | _ => false

/-- The HTTP request an operation issues when triggered (`openUrlOp` and
`copyOp` issue none). -/
def BoundOp.request (cfg : Config) : BoundOp → Option HttpRequest
  | .openUrlOp _ => none
  | .copyOp _ => none
  | .archiveOp i => some (archiveRequest cfg i)
  | .deleteOp i => some (deleteRequest cfg i)

/-- One `Action(id, label, callable)` of a `StandardItem`. -/
structure ActionBinding where
  actionId : String
  label : String
  op : BoundOp
deriving DecidableEq, Repr

/-- Python's `s.replace(pat, repl, 1)`: replace the first occurrence of
`pat` (here always the non-empty string `"/api"`). -/
def replaceFirst (s pat repl : String) : String :=
  match s.splitOn pat with
  | [] => s
  | [x] => x
  | x :: y :: xs => x ++ repl ++ pyJoin pat (y :: xs)

/-- The `StandardItem` built for one bookmark. -/
structure StandardItem where
  itemId : String
  text : String
  subtext : String
  actions : List ActionBinding
deriving DecidableEq, Repr

/-- `Plugin._gen_item` (src lines 148–165).  `bookmark["title"] or
bookmark["url"]` selects the url exactly when the title is the empty
string; `is_marked` prepends the star.  The action list is transcribed
binding by binding; note that the "delete" action's lambda calls
`self._archive_bookmark` (src line 163). -/
def gen_item (plugin_id : String) (bookmark : RawRecord) : StandardItem :=
  let title := if bookmark.title = "" then bookmark.url else bookmark.title
  let title := if bookmark.is_marked then "⭐ " ++ title else title
  { itemId := plugin_id
    text := title
    subtext := pyJoin "," bookmark.labels ++ ": " ++ bookmark.url
    actions :=
      [⟨"open", "Open in Readeck", .openUrlOp (replaceFirst bookmark.href "/api" "")⟩,
       ⟨"open", "Open bookmark URL", .openUrlOp bookmark.url⟩,
       ⟨"copy", "Copy URL to clipboard", .copyOp bookmark.url⟩,
       ⟨"archive", "Archive bookmark", .archiveOp bookmark.id⟩,
       ⟨"delete", "Delete bookmark", .archiveOp bookmark.id⟩] }

/-- Truthiness of `response_headers` in `_get_links`: `None` and the
empty header dict are falsy (`if not response_headers:`). -/
def headersFalsy : Option (List (String × Nat)) → Bool
  | none => true
  | some l => l.isEmpty

/-- The observable outcome of one full consumption of the `_get_links`
generator: the offsets requested (each one an HTTP GET, see
`listRequest`), the pages yielded, the warnings logged, and the
transport error that propagated uncaught, if any. -/
structure PagerRun where
  requests : List Nat
  pages : List (List RawRecord)
  warnings : List String
  transportError : Option TransportError
deriving DecidableEq, Repr

/-- The `while offset <= total` loop of `Plugin._get_links`
(src lines 186–204), with the server as an oracle from the requested
offset to the outcome of `requests.get` (`Except.error` = the raised
transport exception, which nothing catches).  On a 2xx response the
first truthy header dict is captured and `total` is set from its
`Total-Count` entry (default 1); on a non-2xx response a warning is
logged and the loop breaks.  `fuel` bounds the unrolling of the
unbounded Python loop. -/
def getLinksLoop (cfg : Config) (server : Nat → Except TransportError Response) :
    Nat → Nat → Nat → Option (List (String × Nat)) → PagerRun
  | 0, _, _, _ => ⟨[], [], [], none⟩
  | fuel + 1, offset, total, response_headers =>
    if offset ≤ total then
      match server offset with
      | .error e => ⟨[offset], [], [], some e⟩
      | .ok response =>
        if response.ok then
          let response_headers2 :=
            if headersFalsy response_headers then some response.headers
            else response_headers
          let total2 :=
            if headersFalsy response_headers then
              ((response.headers.lookup "Total-Count").getD 1)
            else total
          let rest := getLinksLoop cfg server fuel (offset + limit) total2 response_headers2
          ⟨offset :: rest.requests, response.body :: rest.pages,
           rest.warnings, rest.transportError⟩
        else
          ⟨[offset], [],
           ["Got response " ++ toString response.statusCode ++ " querying "
              ++ listUrl cfg offset], none⟩
    else ⟨[], [], [], none⟩

/-- `Plugin._get_links` entered fresh: `offset = 0`, `total = 1`,
`response_headers = None` (src lines 186–190). -/
def getLinks (cfg : Config) (server : Nat → Except TransportError Response)
    (fuel : Nat) : PagerRun :=
  getLinksLoop cfg server fuel 0 1 none

/-- A server that never fails at the transport level (every
`requests.get` returns a `Response`, 2xx or not). -/
def pureServer (f : Nat → Response) : Nat → Except TransportError Response :=
  fun n => Except.ok (f n)

/-- One `IndexItem(item=..., string=...)` appended by `fetchIndexItems`. -/
structure IndexItem where
  item : StandardItem
  string : String
deriving DecidableEq, Repr

/-- The plugin state the refresh cycle touches: `self._index_items`
(the accumulator list) and the index installed by
`self.setIndexItems(...)` (the generation visible to queries). -/
structure FetchState where
  index_items : List IndexItem
  installedIndex : List IndexItem
deriving DecidableEq, Repr

/-- `Plugin.fetchIndexItems` (src lines 115–124) over the embedded
pager.  `_fetch_results` flattens the generator of pages; for each link
an `IndexItem` is appended to `self._index_items`; then
`updateIndexItems` installs the list and the accumulator is reset.  If
the generator raises a transport error, the pages yielded before the
failure have already been appended, `updateIndexItems` is never
reached, and the exception propagates (second component `some e`). -/
def fetchIndexItems (cfg : Config) (plugin_id : String)
    (server : Nat → Except TransportError Response) (fuel : Nat)
    (st : FetchState) : FetchState × Option TransportError :=
  let run := getLinks cfg server fuel
  let data := run.pages.flatten
  let items := st.index_items ++
    data.map (fun link => ⟨gen_item plugin_id link, create_filters link⟩)
  match run.transportError with
  | some e => ({ st with index_items := items }, some e)
  | none => (⟨[], items⟩, none)

/-- The state of one `LinkFetcherThread` object as the setters see it:
its identity, whether it is alive, and the `cache_length` it was
constructed with. -/
structure SchedulerThread where
  threadId : Nat
  alive : Bool
  cache_length : Int
deriving DecidableEq, Repr

/-- Thread lifecycle operations a setter performs, in order:
`stop` (`self._thread.stop()`), `join` (`self._thread.join()`),
`start` (`LinkFetcherThread(...).start()`). -/
inductive ThreadEvent where
  | stop (threadId : Nat)
  | join (threadId : Nat)
  | start (threadId : Nat)
deriving DecidableEq, Repr

/-- The plugin configuration state the property setters touch. -/
structure PluginState where
  instance_url : String
  api_key : String
  cache_length : Int
  thread : SchedulerThread
  nextThreadId : Nat
deriving DecidableEq, Repr

/-- The `instance_url` setter (src lines 69–72): stores the value and
persists it (`writeConfig`, external).  It does not touch the thread. -/
def set_instance_url (st : PluginState) (value : String) :
    PluginState × List ThreadEvent :=
  ({ st with instance_url := value }, [])

/-- The `api_key` setter (src lines 78–81): stores the value and
persists it.  It does not touch the thread. -/
def set_api_key (st : PluginState) (value : String) :
    PluginState × List ThreadEvent :=
  ({ st with api_key := value }, [])

/-- The `cache_length` setter (src lines 87–98): clamps the value to at
least 1, stores and persists it, then — when the current thread is
alive — stops and joins it, and finally constructs and starts a
replacement `LinkFetcherThread` with the new cache length.  (The
`self.cache_timeout = datetime.now()` assignment touches a field
nothing else reads and is omitted.) -/
def set_cache_length (st : PluginState) (value : Int) :
    PluginState × List ThreadEvent :=
  let value := if value < 1 then 1 else value
  let stopEvents :=
    if st.thread.alive then
      [ThreadEvent.stop st.thread.threadId, ThreadEvent.join st.thread.threadId]
    else []
  let newThread : SchedulerThread := ⟨st.nextThreadId, true, value⟩
  ({ st with cache_length := value, thread := newThread,
             nextThreadId := st.nextThreadId + 1 },
   stopEvents ++ [ThreadEvent.start st.nextThreadId])

/-- The stop `Event` of a `LinkFetcherThread` (src line 24). -/
structure StopEvent where
  is_set : Bool
deriving DecidableEq, Repr

/-- `LinkFetcherThread.stop` (src lines 36–37): `self.__stop_event.set()`. -/
def stopSignal (e : StopEvent) : StopEvent :=
  { e with is_set := true }

/-- `LinkFetcherThread.__init__` (src line 26) converts the configured
cache length in minutes to the wait duration in seconds:
`self.__cache_length = cache_length * 60`. -/
def threadWaitSeconds (cache_length : Nat) : Nat := cache_length * 60

/-- Observable events of a `LinkFetcherThread.run` execution:
a refresh cycle (`self.__callback()`) or a wait
(`self.__stop_event.wait(self.__cache_length)`), with its duration. -/
inductive RunEvent where
  | cycle
  | wait (seconds : Nat)
deriving BEq, DecidableEq, Repr

/-- The `while True` loop of `LinkFetcherThread.run` (src lines 30–34),
starting at wake index `n`.  `isSetAt k` tells whether the stop event is
observed set when the k-th wait returns.  Each iteration waits, then
returns if the stop event is set and otherwise runs the callback.
Returns the event trace and whether the loop returned within `fuel`
iterations. -/
def fetcherLoop (waitSec : Nat) (isSetAt : Nat → Bool) :
    Nat → Nat → List RunEvent × Bool
  | 0, _ => ([], false)
  | fuel + 1, n =>
    if isSetAt n then ([RunEvent.wait waitSec], true)
    else
      let rest := fetcherLoop waitSec isSetAt fuel (n + 1)
      (RunEvent.wait waitSec :: RunEvent.cycle :: rest.1, rest.2)

/-- `LinkFetcherThread.run` (src lines 28–34): one immediate callback,
then the wait loop. -/
def fetcherRun (cache_length : Nat) (isSetAt : Nat → Bool) (fuel : Nat) :
    List RunEvent × Bool :=
  let tr := fetcherLoop (threadWaitSeconds cache_length) isSetAt fuel 0
  (RunEvent.cycle :: tr.1, tr.2)

/-- The trace the wait loop produces when the stop signal is first
observed at wake `k`: `k` full wait-then-cycle rounds, then a final
wait after which the loop returns without running another cycle. -/
def expectedLoopTrace (waitSec : Nat) : Nat → List RunEvent
  | 0 => [RunEvent.wait waitSec]
  | k + 1 => RunEvent.wait waitSec :: RunEvent.cycle :: expectedLoopTrace waitSec k

/-! ### Concrete inputs used by counterexamples and witnesses -/

/-- The default configuration (src lines 51–52 defaults). -/
def cfg0 : Config := ⟨"http://localhost:8000", ""⟩

/-- A concrete bookmark with an empty title, marked, two labels
(the transformer example of spec §8). -/
def exBookmark : RawRecord :=
  ⟨"b1", "http://x", "", ["a", "b"], true, false, "http://h/api/bookmarks/b1"⟩

/-- A concrete plugin state whose fetcher thread is alive. -/
def st0 : PluginState := ⟨"http://localhost:8000", "key", 15, ⟨0, true, 15⟩, 1⟩

/-- A server whose every request fails at the transport level
(`requests.get` raises). -/
def failingServer : Nat → Except TransportError Response :=
  fun _ => Except.error ⟨"connection timeout"⟩

/-! ### Helper lemmas -/

theorem lookup_isEmpty_false {l : List (String × Nat)} {k : String} {v : Nat}
    (h : l.lookup k = some v) : l.isEmpty = false := by
  cases l with
  | nil => simp [List.lookup] at h
  | cons a as => rfl

theorem getLinksLoop_stop (cfg : Config)
    (server : Nat → Except TransportError Response) (fuel offset total : Nat)
    (rh : Option (List (String × Nat))) (h : ¬ offset ≤ total) :
    getLinksLoop cfg server fuel offset total rh = ⟨[], [], [], none⟩ := by
  cases fuel <;> simp [getLinksLoop, h]

theorem getLinksLoop_pure_no_transport (cfg : Config) (f : Nat → Response) :
    ∀ (fuel offset total : Nat) (rh : Option (List (String × Nat))),
      (getLinksLoop cfg (pureServer f) fuel offset total rh).transportError = none := by
  intro fuel
  induction fuel with
  | zero => intro offset total rh; rfl
  | succ n ih =>
    intro offset total rh
    by_cases h : offset ≤ total
    · by_cases hok : (f offset).ok
      · simp [getLinksLoop, h, pureServer, hok, ih]
      · simp [getLinksLoop, h, pureServer, hok]
    · simp [getLinksLoop, h]

theorem getLinksLoop_headers_fixed (cfg : Config) (f g : Nat → Response)
    (hok : ∀ n, (f n).ok = (g n).ok)
    (hbody : ∀ n, (f n).body = (g n).body)
    (hsc : ∀ n, (f n).statusCode = (g n).statusCode) :
    ∀ (fuel offset total : Nat) (h : List (String × Nat)), h.isEmpty = false →
      getLinksLoop cfg (pureServer f) fuel offset total (some h)
        = getLinksLoop cfg (pureServer g) fuel offset total (some h) := by
  intro fuel
  induction fuel with
  | zero => intro offset total h hne; rfl
  | succ n ih =>
    intro offset total h hne
    by_cases hle : offset ≤ total
    · by_cases hfo : (f offset).ok
      · have hgo : (g offset).ok = true := by rw [← hok]; exact hfo
        simp [getLinksLoop, hle, pureServer, hfo, hgo, headersFalsy, hne,
          hbody offset, ih _ _ _ hne]
      · have hgo : (g offset).ok = false := by rw [← hok]; simpa using hfo
        simp [getLinksLoop, hle, pureServer, hfo, hgo, hsc offset]
    · simp [getLinksLoop, hle]

/-- Number of refresh cycles (callback invocations) in a thread trace. -/
def countCycles : List RunEvent → Nat
  | [] => 0
  | RunEvent.cycle :: rest => countCycles rest + 1
  | RunEvent.wait _ :: rest => countCycles rest

/-- Number of waits in a thread trace. -/
def countWaits : List RunEvent → Nat
  | [] => 0
  | RunEvent.cycle :: rest => countWaits rest
  | RunEvent.wait _ :: rest => countWaits rest + 1

theorem fetcherLoop_expected (w : Nat) (isSetAt : Nat → Bool) :
    ∀ (k n fuel : Nat), (∀ j, j < k → isSetAt (n + j) = false) →
      isSetAt (n + k) = true → k < fuel →
      fetcherLoop w isSetAt fuel n = (expectedLoopTrace w k, true) := by
  intro k
  induction k with
  | zero =>
    intro n fuel h0 hk hf
    obtain ⟨m, rfl⟩ : ∃ m, fuel = m + 1 := ⟨fuel - 1, by omega⟩
    simp only [Nat.add_zero] at hk
    simp [fetcherLoop, hk, expectedLoopTrace]
  | succ k ih =>
    intro n fuel h0 hk hf
    obtain ⟨m, rfl⟩ : ∃ m, fuel = m + 1 := ⟨fuel - 1, by omega⟩
    have hn : isSetAt n = false := by
      have := h0 0 (by omega)
      simpa using this
    have h0' : ∀ j, j < k → isSetAt (n + 1 + j) = false := by
      intro j hj
      have := h0 (j + 1) (by omega)
      have e : n + (j + 1) = n + 1 + j := by omega
      rwa [e] at this
    have hk' : isSetAt (n + 1 + k) = true := by
      have e : n + (k + 1) = n + 1 + k := by omega
      rwa [e] at hk
    have hrec := ih (n + 1) m h0' hk' (by omega)
    simp [fetcherLoop, hn, hrec, expectedLoopTrace]

theorem expectedLoopTrace_getLast (w : Nat) :
    ∀ (k : Nat) (a : RunEvent),
      (a :: expectedLoopTrace w k).getLast? = some (RunEvent.wait w) := by
  intro k
  induction k with
  | zero => intro a; rfl
  | succ k ih =>
    intro a
    rw [expectedLoopTrace, List.getLast?_cons_cons]
    exact ih RunEvent.cycle

theorem expectedLoopTrace_counts (w : Nat) :
    ∀ k : Nat, countCycles (expectedLoopTrace w k) = k
      ∧ countWaits (expectedLoopTrace w k) = k + 1
      ∧ (expectedLoopTrace w k).getLast? = some (RunEvent.wait w) := by
  intro k
  refine ⟨?_, ?_, ?_⟩
  · induction k with
    | zero => rfl
    | succ k ih => simp [expectedLoopTrace, countCycles, ih]
  · induction k with
    | zero => rfl
    | succ k ih => simp [expectedLoopTrace, countWaits, ih]
  · cases k with
    | zero => rfl
    | succ k =>
      rw [expectedLoopTrace, List.getLast?_cons_cons]
      exact expectedLoopTrace_getLast w k RunEvent.cycle

/-! ### Claim theorems -/

/-- C1: the "delete" action of every generated search record is bound to
the same operation as the "archive" action, namely
`_archive_bookmark`, which issues the PATCH request with
`is_archived = true`; no action of any record is bound to
`_delete_bookmark`, so the dedicated delete function (which issues the
DELETE request) is unreachable from any record's action bindings. -/
theorem c1_delete_action_binds_archive (plugin_id : String) (b : RawRecord)
    (cfg : Config) (bookmark_id : String) :
    ((gen_item plugin_id b).actions.map ActionBinding.op)
      = [BoundOp.openUrlOp (replaceFirst b.href "/api" ""),
         BoundOp.openUrlOp b.url, BoundOp.copyOp b.url,
         BoundOp.archiveOp b.id, BoundOp.archiveOp b.id]
    ∧ ((gen_item plugin_id b).actions.all fun a => ! a.op.isDeleteOp) = true
    ∧ BoundOp.request cfg (BoundOp.archiveOp bookmark_id)
        = some (archiveRequest cfg bookmark_id)
    ∧ (archiveRequest cfg bookmark_id).method = "PATCH"
    ∧ (archiveRequest cfg bookmark_id).jsonBody = [("is_archived", true)]
    ∧ BoundOp.request cfg (BoundOp.deleteOp bookmark_id)
        = some (deleteRequest cfg bookmark_id)
    ∧ (deleteRequest cfg bookmark_id).method = "DELETE" :=
  ⟨rfl, rfl, rfl, rfl, rfl, rfl, rfl⟩

/-- C2 counterexample: a transport failure on the first page request
propagates out of `fetchIndexItems` (the second component is the
uncaught exception), and the index is never installed — refuting the
claim that a refresh cycle never raises to its caller. -/
theorem c2_transport_error_propagates :
    (fetchIndexItems cfg0 "p" failingServer 5 ⟨[], []⟩).2
        = some ⟨"connection timeout"⟩
    ∧ (fetchIndexItems cfg0 "p" failingServer 5 ⟨[], []⟩).1.installedIndex = [] :=
  ⟨rfl, rfl⟩

/-- C2 (amended): when no transport failure occurs, a refresh cycle
never raises to its caller — in particular a non-2xx page response is
logged as a warning and terminates the pagination early with no
propagation; a transport failure, however, propagates uncaught. -/
theorem c2_error_handling (cfg : Config) (plugin_id : String) (fuel : Nat)
    (st : FetchState) (f : Nat → Response)
    (g : Nat → Except TransportError Response) (e : TransportError)
    (offset total : Nat) (rh : Option (List (String × Nat))) :
    (fetchIndexItems cfg plugin_id (pureServer f) fuel st).2 = none
    ∧ ((f offset).ok = false → offset ≤ total →
        getLinksLoop cfg (pureServer f) (fuel + 1) offset total rh
          = ⟨[offset], [],
             ["Got response " ++ toString (f offset).statusCode ++ " querying "
                ++ listUrl cfg offset], none⟩)
    ∧ (g offset = Except.error e → offset ≤ total →
        (getLinksLoop cfg g (fuel + 1) offset total rh).transportError = some e) := by
  refine ⟨?_, ?_, ?_⟩
  · have h := getLinksLoop_pure_no_transport cfg f fuel 0 1 none
    simp [fetchIndexItems, getLinks, h]
  · intro hok hle
    simp [getLinksLoop, hle, pureServer, hok]
  · intro herr hle
    simp [getLinksLoop, hle, herr]

/-- C2 witness: a concrete 500 response at offset 0 makes the loop stop
with one request, no pages, the logged warning, and no exception. -/
theorem c2_error_handling_witness :
    getLinksLoop cfg0 (pureServer fun _ => ⟨false, 500, [], []⟩) 4 0 1 none
      = ⟨[0], [],
         ["Got response " ++ toString (500 : Nat) ++ " querying " ++ listUrl cfg0 0],
         none⟩ := by
  exact (c2_error_handling cfg0 "p" 3 ⟨[], []⟩ (fun _ => ⟨false, 500, [], []⟩)
    failingServer ⟨"connection timeout"⟩ 0 1 none).2.1 rfl (by decide)

/-- C3 counterexample: with an alive scheduler thread, reconfiguring the
credentials (api key or instance url) performs no thread operation at
all and leaves the very same thread installed — refuting the claim that
every credentials reconfiguration stops, joins and replaces the
scheduler thread. -/
theorem c3_credentials_setter_leaves_thread :
    st0.thread.alive = true
    ∧ (set_api_key st0 "newkey").2 = []
    ∧ (set_api_key st0 "newkey").1.thread = st0.thread
    ∧ (set_instance_url st0 "http://other").2 = []
    ∧ (set_instance_url st0 "http://other").1.thread = st0.thread := by
  decide

/-- C3 (amended): only reconfiguration of the refresh interval
(`cache_length`) stops and fully joins the existing scheduler thread
(when it is alive) before starting the replacement; the credentials
setters (`instance_url`, `api_key`) only store the new value and never
stop, join or replace the scheduler thread. -/
theorem c3_setter_thread_lifecycle (st : PluginState) (v : String) (w : Int) :
    (set_instance_url st v).2 = []
    ∧ (set_instance_url st v).1.thread = st.thread
    ∧ (set_api_key st v).2 = []
    ∧ (set_api_key st v).1.thread = st.thread
    ∧ (st.thread.alive = true →
        (set_cache_length st w).2
          = [ThreadEvent.stop st.thread.threadId, ThreadEvent.join st.thread.threadId,
             ThreadEvent.start st.nextThreadId]
        ∧ (set_cache_length st w).1.thread.threadId = st.nextThreadId
        ∧ (set_cache_length st w).1.thread.alive = true)
    ∧ (st.thread.alive = false →
        (set_cache_length st w).2 = [ThreadEvent.start st.nextThreadId]) := by
  refine ⟨rfl, rfl, rfl, rfl, ?_, ?_⟩
  · intro h
    refine ⟨?_, rfl, rfl⟩
    simp [set_cache_length, h]
  · intro h
    simp [set_cache_length, h]

/-- C3 witness: on a concrete state with an alive thread, the interval
setter stops and joins thread 0 before starting thread 1. -/
theorem c3_setter_thread_lifecycle_witness :
    (set_cache_length st0 30).2
      = [ThreadEvent.stop 0, ThreadEvent.join 0, ThreadEvent.start 1] := by
  exact ((c3_setter_thread_lifecycle st0 "x" 30).2.2.2.2.1 rfl).1

/-- C4 counterexample: the archive (and delete) requests are issued with
no `timeout=` argument, refuting the claim that every Remote Client
request carries the fixed 5-second timeout. -/
theorem c4_archive_request_has_no_timeout :
    (archiveRequest cfg0 "b1").timeout = none
    ∧ (deleteRequest cfg0 "b1").timeout = none
    ∧ (archiveRequest cfg0 "b1").timeout ≠ some 5 := by
  decide

/-- C4 (amended): every HTTP request issued by the Remote Client
operations (list-page, archive, delete) carries the bearer-token
Authorization header and the fixed User-Agent; the list-page request is
issued with the fixed 5-second timeout, while the archive and delete
requests are issued without any timeout. -/
theorem c4_request_headers_and_timeouts (cfg : Config) (offset : Nat) (bid : String) :
    (listRequest cfg offset).headers.lookup "Authorization"
        = some ("Bearer " ++ cfg.api_key)
    ∧ (listRequest cfg offset).headers.lookup "User-Agent" = some user_agent
    ∧ (listRequest cfg offset).timeout = some 5
    ∧ (archiveRequest cfg bid).headers.lookup "Authorization"
        = some ("Bearer " ++ cfg.api_key)
    ∧ (archiveRequest cfg bid).headers.lookup "User-Agent" = some user_agent
    ∧ (archiveRequest cfg bid).timeout = none
    ∧ (deleteRequest cfg bid).headers.lookup "Authorization"
        = some ("Bearer " ++ cfg.api_key)
    ∧ (deleteRequest cfg bid).headers.lookup "User-Agent" = some user_agent
    ∧ (deleteRequest cfg bid).timeout = none := by
  refine ⟨?_, ?_, rfl, ?_, ?_, rfl, ?_, ?_, rfl⟩ <;> rfl

/-- C5: against a server whose every page succeeds and reports
`Total-Count = 250` (with `limit = 100`), the pager issues exactly the
three requests at offsets 0, 100 and 200, yields those three pages, and
stops. -/
theorem c5_pagination_termination (fuel : Nat) (cfg : Config) (f : Nat → Response)
    (hok : ∀ n, (f n).ok = true)
    (htc : ∀ n, (f n).headers.lookup "Total-Count" = some 250) :
    (getLinks cfg (pureServer f) (fuel + 3)).requests = [0, 100, 200]
    ∧ (getLinks cfg (pureServer f) (fuel + 3)).pages
        = [(f 0).body, (f 100).body, (f 200).body] := by
  have h0 : (f 0).headers.isEmpty = false := lookup_isEmpty_false (htc 0)
  constructor <;>
    simp [getLinks, getLinksLoop, pureServer, headersFalsy, limit, hok, htc, h0,
      getLinksLoop_stop]

/-- C5 witness: a concrete constant server with `Total-Count = 250`. -/
theorem c5_pagination_termination_witness :
    (getLinks cfg0 (pureServer fun _ => ⟨true, 200, [("Total-Count", 250)], []⟩)
        3).requests = [0, 100, 200] := by
  exact (c5_pagination_termination 0 cfg0
    (fun _ => ⟨true, 200, [("Total-Count", 250)], []⟩) (fun _ => rfl) (fun _ => rfl)).1

/-- Concrete server for the C6 scenario: page 1 (offset 0) succeeds with
`Total-Count = 250` and one bookmark; every later page fails with
status 500. -/
def c6srv : Nat → Response :=
  fun n => if n = 0 then ⟨true, 200, [("Total-Count", 250)], [exBookmark]⟩
           else ⟨false, 500, [], []⟩

/-- C6: when the first page succeeds (reporting `Total-Count = 250`) and
the page at offset 100 returns non-2xx, the pager yields exactly the
records of the first page, the refresh cycle raises nothing, and it
still installs that partial batch as the new index generation
(replacing whatever was installed before). -/
theorem c6_partial_failure_installs_batch (fuel : Nat) (cfg : Config)
    (plugin_id : String) (f : Nat → Response) (st : FetchState)
    (hst : st.index_items = [])
    (h0 : (f 0).ok = true)
    (htc : (f 0).headers.lookup "Total-Count" = some 250)
    (h1 : (f 100).ok = false) :
    (getLinks cfg (pureServer f) (fuel + 2)).pages = [(f 0).body]
    ∧ (fetchIndexItems cfg plugin_id (pureServer f) (fuel + 2) st).2 = none
    ∧ (fetchIndexItems cfg plugin_id (pureServer f) (fuel + 2) st).1.installedIndex
        = (f 0).body.map (fun link => ⟨gen_item plugin_id link, create_filters link⟩) := by
  have hne : (f 0).headers.isEmpty = false := lookup_isEmpty_false htc
  refine ⟨?_, ?_, ?_⟩ <;>
    simp [getLinks, getLinksLoop, fetchIndexItems, pureServer, headersFalsy, limit,
      h0, htc, h1, hne, hst, getLinksLoop_stop]

/-- C6 witness: the concrete two-page scenario yields exactly the first
page. -/
theorem c6_partial_failure_installs_batch_witness :
    (getLinks cfg0 (pureServer c6srv) 2).pages = [[exBookmark]] := by
  exact (c6_partial_failure_installs_batch 0 cfg0 "p" c6srv ⟨[], []⟩
    rfl rfl rfl (by decide)).1

/-- C7: for every raw bookmark the display text is the title when
non-empty and otherwise the url, with the star marker prepended when
`is_marked`; the filter string is `url + "," + title + "," +
join(labels, ",")`; and on the concrete input with empty title, url
`http://x`, marked, labels `["a","b"]` they are `"⭐ http://x"` and
`"http://x,,a,b"`. -/
theorem c7_transformer_display_and_filter (plugin_id : String) (b : RawRecord) :
    (gen_item plugin_id b).text
      = (if b.is_marked then "⭐ " else "")
          ++ (if b.title = "" then b.url else b.title)
    ∧ create_filters b = b.url ++ "," ++ b.title ++ "," ++ pyJoin "," b.labels
    ∧ (gen_item plugin_id exBookmark).text = "⭐ http://x"
    ∧ create_filters exBookmark = "http://x,,a,b" := by
  refine ⟨?_, ?_, rfl, rfl⟩
  · by_cases hm : b.is_marked <;> simp [gen_item, hm]
  · simp [create_filters, pyJoin, String.append_assoc]

/-- C8: two servers that agree on the entire first-page response and on
the success flag, body and status of every page — but may report any
other `Total-Count` on later pages — produce identical pager runs: the
total is captured from the first successful page only and later
headers never change the loop bound. -/
theorem c8_total_count_captured_once (cfg : Config) (fuel : Nat)
    (f g : Nat → Response)
    (h00 : f 0 = g 0)
    (hok : ∀ n, (f n).ok = (g n).ok)
    (hbody : ∀ n, (f n).body = (g n).body)
    (hsc : ∀ n, (f n).statusCode = (g n).statusCode) :
    getLinks cfg (pureServer f) fuel = getLinks cfg (pureServer g) fuel := by
  cases fuel with
  | zero => rfl
  | succ n =>
    by_cases hfo : (f 0).ok
    · have hgo : (g 0).ok = true := by rw [← hok]; exact hfo
      by_cases hne : (f 0).headers.isEmpty
      · have hnil : (f 0).headers = [] := by simpa using hne
        simp [getLinks, getLinksLoop, pureServer, hfo, hgo, headersFalsy, ← h00, hnil,
          limit, getLinksLoop_stop]
      · have hne' : (f 0).headers.isEmpty = false := by simpa using hne
        simp [getLinks, getLinksLoop, pureServer, hfo, hgo, headersFalsy, ← h00, hne',
          limit, hbody 0,
          getLinksLoop_headers_fixed cfg f g hok hbody hsc n _ _ _ hne']
    · have hgo : (g 0).ok = false := by rw [← hok]; simpa using hfo
      simp [getLinks, getLinksLoop, pureServer, hfo, hgo, ← h00, hsc 0]

/-- First page for the C8 witness: reports `Total-Count = 150`. -/
def c8page0 : Response := ⟨true, 200, [("Total-Count", 150)], []⟩

/-- Later pages of the first C8 witness server: repeat `Total-Count = 150`. -/
def c8later1 : Response := ⟨true, 200, [("Total-Count", 150)], []⟩

/-- Later pages of the second C8 witness server: report a different
`Total-Count = 999`. -/
def c8later2 : Response := ⟨true, 200, [("Total-Count", 999)], []⟩

/-- C8 witness: a server whose second page reports `Total-Count = 999`
instead of 150 produces the identical pager run. -/
theorem c8_total_count_captured_once_witness :
    getLinks cfg0 (pureServer fun n => if n = 0 then c8page0 else c8later1) 5
      = getLinks cfg0 (pureServer fun n => if n = 0 then c8page0 else c8later2) 5 := by
  exact c8_total_count_captured_once cfg0 5 _ _ rfl
    (fun n => by cases n <;> rfl) (fun n => by cases n <;> rfl)
    (fun n => by cases n <;> rfl)

/-- C9: after start, the fetcher thread runs one cycle immediately, then
alternates waits of `cache_length * 60` seconds and cycles, running a
cycle only on a wake without the stop signal; when the stop signal is
first observed at wake `k` the trace is exactly one leading cycle plus
`k` wait-cycle rounds plus one final wait and the loop returns — so
after the signal it exits within one wait quantum with no further
cycle (`k + 1` cycles and `k + 1` waits in total, the last event being
a wait); and `stop()` (setting the stop event) is idempotent. -/
theorem c9_fetcher_thread_loop (cache_length : Nat) (isSetAt : Nat → Bool)
    (fuel k : Nat)
    (hfirst : ∀ j, j < k → isSetAt j = false)
    (hk : isSetAt k = true) (hfuel : k < fuel) :
    fetcherRun cache_length isSetAt fuel
      = (RunEvent.cycle :: expectedLoopTrace (threadWaitSeconds cache_length) k, true)
    ∧ threadWaitSeconds cache_length = cache_length * 60
    ∧ countCycles
        (RunEvent.cycle :: expectedLoopTrace (threadWaitSeconds cache_length) k)
        = k + 1
    ∧ countWaits (expectedLoopTrace (threadWaitSeconds cache_length) k) = k + 1
    ∧ (expectedLoopTrace (threadWaitSeconds cache_length) k).getLast?
        = some (RunEvent.wait (threadWaitSeconds cache_length))
    ∧ (∀ e : StopEvent, stopSignal (stopSignal e) = stopSignal e) := by
  have h := fetcherLoop_expected (threadWaitSeconds cache_length) isSetAt k 0 fuel
    (by simpa using hfirst) (by simpa using hk) hfuel
  have hc := expectedLoopTrace_counts (threadWaitSeconds cache_length) k
  exact ⟨by simp [fetcherRun, h], rfl, by simp [countCycles, hc.1], hc.2.1, hc.2.2,
    fun e => rfl⟩

/-- C9 witness: with the stop signal first observed at wake 2 and cache
length 15 minutes, the run is cycle, three 900-second waits interleaved
with two more cycles, then return. -/
theorem c9_fetcher_thread_loop_witness :
    fetcherRun 15 (fun n => decide (2 ≤ n)) 5
      = (RunEvent.cycle :: expectedLoopTrace (threadWaitSeconds 15) 2, true) := by
  exact (c9_fetcher_thread_loop 15 (fun n => decide (2 ≤ n)) 5 2
    (by decide) (by decide) (by decide)).1

/-- C10: if the first page succeeds but carries no `Total-Count` header,
the pager takes the default total of 1, so the next offset 100 exceeds
it and exactly one page is fetched, with no warning and no error —
whatever the server actually holds. -/
theorem c10_missing_total_count_single_page (fuel : Nat) (cfg : Config)
    (f : Nat → Response)
    (hok : (f 0).ok = true)
    (htc : (f 0).headers.lookup "Total-Count" = none) :
    getLinks cfg (pureServer f) (fuel + 1) = ⟨[0], [(f 0).body], [], none⟩ := by
  simp [getLinks, getLinksLoop, pureServer, headersFalsy, limit, hok, htc,
    getLinksLoop_stop]

/-- C10 witness: a concrete server with empty response headers yields a
single page holding the example bookmark. -/
theorem c10_missing_total_count_single_page_witness :
    getLinks cfg0 (pureServer fun _ => ⟨true, 200, [], [exBookmark]⟩) 3
      = ⟨[0], [[exBookmark]], [], none⟩ := by
  exact c10_missing_total_count_single_page 2 cfg0
    (fun _ => ⟨true, 200, [], [exBookmark]⟩) rfl rfl

end Readeck
